import Mathlib

/-!
Verification of the differential- and averaging-operator construction engine of the
`discretize` finite-volume package (`discretize/operators/differential_operators.py`).

Sparse scipy matrices are embedded as Mathlib matrices over `ℚ` (all matrix entries
produced by the engine are dyadic rationals, so exact arithmetic over `ℚ` subsumes the
floating-point computation up to rounding).  The flat x-fastest ("Fortran") vector
ordering of the package is represented by nested product index types, with the
outermost Kronecker factor first: `scipy.sparse.kron(A, B)` becomes a Kronecker
product indexed by pairs, and the stacked face/edge vectors become `Sum` types with
`Matrix.fromColumns` / `Matrix.fromRows` playing the role of `sp.hstack` / `sp.vstack`.
-/

open Matrix Kronecker

namespace Discretize

/-- Modelled from the spec: `discretize.utils.ddx` (not part of the given sources).
The 1D signed bidiagonal "low-to-high" difference stencil, `D[i, i] = -1`,
`D[i, i+1] = +1`, one-sided at both ends.  Its shape is `(n, n+1)`, matching its use
in the sources, where `ddx(shape_cells[k])` maps the `n+1` faces of a 1D axis to its
`n` cells. -/
def ddx (n : ℕ) : Matrix (Fin n) (Fin (n + 1)) ℚ :=
  Matrix.of fun i j => if j = i.castSucc then -1 else if j = i.succ then 1 else 0

/-- Modelled from the spec: `discretize.utils.av` (not part of the given sources).
The 1D averaging stencil of shape `(n, n+1)` with `Av[i, i] = Av[i, i+1] = 0.5`. -/
def av (n : ℕ) : Matrix (Fin n) (Fin (n + 1)) ℚ :=
  Matrix.of fun i j =>
    if j = i.castSucc then 1 / 2 else if j = i.succ then 1 / 2 else 0

/-- Modelled from the spec: `discretize.utils.av_extrap` (not part of the given
sources).  The extrapolating cell-to-face averaging stencil: interior rows average the
two neighbouring cells with weights 0.5/0.5, and the two outer rows linearly
extrapolate from the nearest two cells with weights 1.5 and -0.5.  Its shape is
`(n+1, n)`, matching its use in the sources where `av_extrap(shape_cells[k])` maps
cell values to face values along one axis. -/
def av_extrap (n : ℕ) : Matrix (Fin (n + 1)) (Fin n) ℚ :=
  Matrix.of fun i j =>
    if i.val = 0 then
      (if j.val = 0 then 3 / 2 else if j.val = 1 then -(1 / 2) else 0)
    else if i.val = n then
      (if j.val + 1 = n then 3 / 2 else if j.val + 2 = n then -(1 / 2) else 0)
    else
      (if j.val + 1 = i.val then 1 / 2 else if j.val = i.val then 1 / 2 else 0)

/-- Modelled from the spec: `discretize.utils.speye` (not part of the given sources).
The sparse identity matrix. -/
def speye (n : ℕ) : Matrix (Fin n) (Fin n) ℚ := 1

/-- Modelled from the spec: `discretize.utils.sdiag` (not part of the given sources).
The sparse diagonal matrix of a vector. -/
def sdiag {ι : Type} [DecidableEq ι] (v : ι → ℚ) : Matrix ι ι ℚ :=
  Matrix.diagonal v

/-- `scipy.sparse.kron`, as used through `discretize.utils`: the Kronecker product,
with the first factor the outer (slowest-varying) index. -/
def kron {a b c d : Type} (A : Matrix a b ℚ) (B : Matrix c d ℚ) :
    Matrix (a × c) (b × d) ℚ :=
  A ⊗ₖ B

/-- Modelled from the spec: `discretize.utils.kron3` (not part of the given sources).
The three-factor Kronecker product `kron(A, kron(B, C))`, so that the innermost
(fastest) index is the x-axis. -/
def kron3 {a b c d e f : Type} (A : Matrix a b ℚ) (B : Matrix c d ℚ)
    (C : Matrix e f ℚ) : Matrix (a × c × e) (b × d × f) ℚ :=
  kron A (kron B C)

/-! ### Boundary-condition tokens and validation

Python passes boundary conditions as strings or (nested) lists of strings; `PyBC`
embeds exactly that input shape. -/

/-- A Python value supplied as a boundary-condition descriptor: either a string or a
list of such values. -/
inductive PyBC where
  | str : String → PyBC
  | list : List PyBC → PyBC

/-- The token check in the loop of `_validate_BC`: every element of the pair must be
a string equal to `"dirichlet"` or `"neumann"`; a non-string element raises first. -/
def validateTokens : List PyBC → Except String (List String)
  | [] => .ok []
  | PyBC.str s :: rest =>
      if s = "dirichlet" ∨ s = "neumann" then
        match validateTokens rest with
        | .error e => .error e
        | .ok r => .ok (s :: r)
      else .error "each bc must be either, dirichlet or neumann"
  | PyBC.list _ :: _ => .error "each bc must be a string"

/-- `_validate_BC` (differential_operators.py:17).  A single string becomes the pair
`[bc, bc]`; a list must have exactly two elements; each element must be one of the
tokens `"dirichlet"` / `"neumann"`. -/
def _validate_BC : PyBC → Except String (List String)
  | PyBC.str s => validateTokens [PyBC.str s, PyBC.str s]
  | PyBC.list xs =>
      if xs.length ≠ 2 then .error "bc list must have two elements, one for each side"
      else validateTokens xs

/-- The per-axis validation loop of `set_cell_gradient_BC`
(differential_operators.py:1434): each entry of the per-axis list is normalised with
`_validate_BC`. -/
def validateAll : List PyBC → Except String (List (List String))
  | [] => .ok []
  | x :: rest =>
      match _validate_BC x with
      | .error e => .error e
      | .ok v =>
          match validateAll rest with
          | .error e => .error e
          | .ok r => .ok (v :: r)

/-- The token condition of `_validate_BC`: a boundary token must be exactly
`"dirichlet"` or `"neumann"`. -/
def ValidToken (s : String) : Prop := s = "dirichlet" ∨ s = "neumann"

/-- The shapes `_validate_BC` accepts, as the spec states them: a single valid token
or a two-element sequence of valid tokens (one per end). -/
def ValidBCElem : PyBC → Prop
  | PyBC.str s => ValidToken s
  | PyBC.list xs =>
      ∃ a b, xs = [PyBC.str a, PyBC.str b] ∧ ValidToken a ∧ ValidToken b

/-- The shapes `set_cell_gradient_BC` accepts for a `dim`-dimensional mesh, as the
spec states them: a single valid token, or a length-`dim` sequence of per-axis
entries of the `_validate_BC` shapes. -/
def ValidBCSpec (dim : ℕ) : PyBC → Prop
  | PyBC.str s => ValidToken s
  | PyBC.list xs => xs.length = dim ∧ ∀ x ∈ xs, ValidBCElem x

/-- `set_cell_gradient_BC` (differential_operators.py:1426-1441), the
validation/normalisation part: a single string is replicated over the `dim` axes; a
list must have length `dim`; each per-axis entry is normalised by `_validate_BC`.
(The cache-clearing side effect is modelled with the cache state machine below.) -/
def set_cell_gradient_BC (dim : ℕ) (BC : PyBC) : Except String (List (List String)) :=
  let bcl : List PyBC :=
    match BC with
    | PyBC.str s => List.replicate dim (PyBC.str s)
    | PyBC.list xs => xs
  if bcl.length ≠ dim then .error "BC list must be the size of your mesh"
  else validateAll bcl

/-- The matrix built by `_ddxCellGrad` (differential_operators.py:38-80) once its
boundary tokens have been validated: the generic low-to-high cell-to-node difference
(`D[i, i] = 1`, `D[i+1, i] = -1` in row form `u_i - u_(i-1)`), with `D[0, 0]`
overridden to `2` (dirichlet) or `0` (neumann) and `D[n, n-1]` overridden to `-2`
(dirichlet) or `0` (neumann). -/
def ddxCellGradMat (n : ℕ) (t0 t1 : String) : Matrix (Fin (n + 1)) (Fin n) ℚ :=
  Matrix.of fun i j =>
    let base : ℚ :=
      if (j : ℕ) = (i : ℕ) then 1 else if (j : ℕ) + 1 = (i : ℕ) then -1 else 0
    if (i : ℕ) = 0 ∧ (j : ℕ) = 0 then
      (if t0 = "dirichlet" then 2 else if t0 = "neumann" then 0 else base)
    else if (i : ℕ) = n ∧ (j : ℕ) + 1 = n then
      (if t1 = "dirichlet" then -2 else if t1 = "neumann" then 0 else base)
    else base

/-- `_ddxCellGrad` (differential_operators.py:38-80): validate the boundary
conditions, then build the 1D cell-centred difference stencil. -/
def _ddxCellGrad (n : ℕ) (bc : PyBC) : Except String (Matrix (Fin (n + 1)) (Fin n) ℚ) :=
  (_validate_BC bc).map fun l => ddxCellGradMat n (l.getD 0 "") (l.getD 1 "")

/-- The matrix built by `_ddxCellGradBC` (differential_operators.py:83-131) once its
boundary tokens have been validated: the `(n+1, 2)` boundary-value companion with
entry `(0, 0)` equal to `-2` (dirichlet) or `0` (neumann) and entry `(n, 1)` equal to
`2` (dirichlet) or `0` (neumann). -/
def ddxCellGradBCMat (n : ℕ) (t0 t1 : String) : Matrix (Fin (n + 1)) (Fin 2) ℚ :=
  Matrix.of fun i j =>
    (if (i : ℕ) = 0 ∧ (j : ℕ) = 0 then (if t0 = "dirichlet" then -2 else 0) else 0) +
    (if (i : ℕ) = n ∧ (j : ℕ) = 1 then (if t1 = "dirichlet" then 2 else 0) else 0)

/-- `_ddxCellGradBC` (differential_operators.py:83-131). -/
def _ddxCellGradBC (n : ℕ) (bc : PyBC) :
    Except String (Matrix (Fin (n + 1)) (Fin 2) ℚ) :=
  (_validate_BC bc).map fun l => ddxCellGradBCMat n (l.getD 0 "") (l.getD 1 "")

/-! ### 1D mesh operators -/

/-- `face_divergence` for a 1D mesh (differential_operators.py:389-396 with the
`dim == 1` stencil of line 176): `sdiag(1/V) * D * sdiag(S)`. -/
def face_divergence1 (n : ℕ) (V : Fin n → ℚ) (S : Fin (n + 1) → ℚ) :
    Matrix (Fin n) (Fin (n + 1)) ℚ :=
  sdiag (fun c => 1 / V c) * ddx n * sdiag S

/-- `average_cell_to_face` for a 1D mesh (differential_operators.py:3037):
`av_extrap(shape_cells[0])`. -/
def average_cell_to_face1 (n : ℕ) : Matrix (Fin (n + 1)) (Fin n) ℚ :=
  av_extrap n

/-- `stencil_cell_gradient` for a 1D mesh (differential_operators.py:1601-1602) with
normalised per-axis boundary tokens `t0, t1`. -/
def stencil_cell_gradient1 (n : ℕ) (t0 t1 : String) : Matrix (Fin (n + 1)) (Fin n) ℚ :=
  ddxCellGradMat n t0 t1

/-- `cell_gradient` for a 1D mesh (differential_operators.py:1778-1785):
`sdiag(S / (aveCC2F * V)) * G`. -/
def cell_gradient1 (n : ℕ) (t0 t1 : String) (V : Fin n → ℚ) (S : Fin (n + 1) → ℚ) :
    Matrix (Fin (n + 1)) (Fin n) ℚ :=
  sdiag (fun f => S f / (average_cell_to_face1 n *ᵥ V) f) * stencil_cell_gradient1 n t0 t1

/-- `average_face_to_cell` for a 1D mesh (differential_operators.py:2646, 2844):
`aveFx2CC = av(n)`. -/
def average_face_to_cell1 (n : ℕ) : Matrix (Fin n) (Fin (n + 1)) ℚ :=
  av n

/-- `average_edge_to_cell` for a 1D mesh (differential_operators.py:3218, 3416):
`aveEx2CC = speye(n)`. -/
def average_edge_to_cell1 (n : ℕ) : Matrix (Fin n) (Fin n) ℚ :=
  speye n

/-- `average_node_to_cell` for a 1D mesh (differential_operators.py:3642): `av(n)`. -/
def average_node_to_cell1 (n : ℕ) : Matrix (Fin n) (Fin (n + 1)) ℚ :=
  av n

/-! ### The nodal Laplacian (dimension-checked matrix algebra)

`_nodal_laplacian_x` multiplies matrices whose shapes scipy must check at run time,
so its embedding uses a dimension-checked product on matrices packaged with their
shapes: a `none` result is a scipy `dimension mismatch` error. -/

/-- A scipy sparse matrix together with its run-time shape. -/
def MatQ : Type := Σ m n : ℕ, Matrix (Fin m) (Fin n) ℚ

/-- The scipy sparse-matrix product: defined only when the inner dimensions agree,
otherwise a `ValueError: dimension mismatch` is raised (here: `none`). -/
def spmul (A B : MatQ) : Option MatQ :=
  if h : A.2.1 = B.1 then
    some ⟨A.1, B.2.1, Matrix.of fun i j => ∑ k : Fin A.2.1, A.2.2 i k * B.2.2 (Fin.cast h k) j⟩
  else none

/-- `_nodal_laplacian_x` for a 1D mesh (differential_operators.py:1004-1014):
`Hx = sdiag(1.0/h[0])` (an `n × n` matrix over the cell widths) and the returned
value is `Hx.T * self._nodal_gradient_x_stencil * Hx`, where the dim-1 gradient
stencil is `ddx(n)` of shape `(n, n+1)` (differential_operators.py:744-745). -/
def _nodal_laplacian_x_dim1 (n : ℕ) (h : Fin n → ℚ) : Option MatQ :=
  let Hx : MatQ := ⟨n, n, sdiag fun i => 1 / h i⟩
  let HxT : MatQ := ⟨n, n, (sdiag fun i => 1 / h i)ᵀ⟩
  let Gx : MatQ := ⟨n, n + 1, ddx n⟩
  (spmul HxT Gx).bind fun M => spmul M Hx

/-- `nodal_laplacian` for a 1D mesh (differential_operators.py:1157-1172,
`dim == 1` branch): exactly `_nodal_laplacian_x`. -/
def nodal_laplacian1 (n : ℕ) (h : Fin n → ℚ) : Option MatQ :=
  _nodal_laplacian_x_dim1 n h

/-! ### The per-mesh operator cache (1D instance)

`face_divergence` tests and stores the attribute `_face_divergence`;
`average_edge_to_cell` tests `_average_edge_to_cell` but stores into `_avE2CC`
(differential_operators.py:389-396 and 3216-3227).  The getters are embedded as
state transformers that also report whether the build branch ran. -/

/-- The cache attributes of a 1D mesh instance that the two getters under study
touch.  A missing Python attribute is `none`. -/
structure MeshCache1 (n : ℕ) where
  _face_divergence : Option (Matrix (Fin n) (Fin (n + 1)) ℚ) := none
  _average_edge_to_cell : Option (Matrix (Fin n) (Fin n) ℚ) := none
  _avE2CC : Option (Matrix (Fin n) (Fin n) ℚ) := none
deriving DecidableEq

/-- The `face_divergence` getter (differential_operators.py:389-396): if
`_face_divergence` is unset, build and store it there; return the stored matrix.
The `Bool` records whether the build branch ran. -/
def face_divergence_get (n : ℕ) (V : Fin n → ℚ) (S : Fin (n + 1) → ℚ)
    (st : MeshCache1 n) :
    Option (Matrix (Fin n) (Fin (n + 1)) ℚ) × MeshCache1 n × Bool :=
  match st._face_divergence with
  | none =>
      let m := face_divergence1 n V S
      let st1 := { st with _face_divergence := some m }
      (st1._face_divergence, st1, true)
  | some m => (some m, st, false)

/-- The `average_edge_to_cell` getter (differential_operators.py:3216-3227): if
`_average_edge_to_cell` is unset, build the operator and store it into `_avE2CC`;
return `self._avE2CC`.  The `Bool` records whether the build branch ran. -/
def average_edge_to_cell_get (n : ℕ) (st : MeshCache1 n) :
    Option (Matrix (Fin n) (Fin n) ℚ) × MeshCache1 n × Bool :=
  match st._average_edge_to_cell with
  | none =>
      let m := average_edge_to_cell1 n
      let st1 := { st with _avE2CC := some m }
      (st1._avE2CC, st1, true)
  | some _ => (st._avE2CC, st, false)

/-! ### 2D mesh operators

Cell counts are `n0` (x-axis) and `n1` (y-axis).  A flattened x-fastest vector over a
2D location kind is indexed by pairs `(outer, inner) = (y-index, x-index)`. -/

/-- `_face_divergence_stencil` for a 2D mesh (differential_operators.py:227-230 with
the directional stencils of lines 178 and 195). -/
def _face_divergence_stencil2 (n0 n1 : ℕ) :
    Matrix (Fin n1 × Fin n0) ((Fin n1 × Fin (n0 + 1)) ⊕ (Fin (n1 + 1) × Fin n0)) ℚ :=
  fromColumns (kron (speye n1) (ddx n0)) (kron (ddx n1) (speye n0))

/-- `_nodal_gradient_stencil` for a 2D mesh (differential_operators.py:796-800 with
the directional stencils of lines 747 and 764). -/
def _nodal_gradient_stencil2 (n0 n1 : ℕ) :
    Matrix ((Fin (n1 + 1) × Fin n0) ⊕ (Fin n1 × Fin (n0 + 1)))
      (Fin (n1 + 1) × Fin (n0 + 1)) ℚ :=
  fromRows (kron (speye (n1 + 1)) (ddx n0)) (kron (ddx n1) (speye (n0 + 1)))

/-- The 2D edge-lengths vector: x-edges have length `h0[i]`, y-edges `h1[j]`
(tensor-mesh geometry consumed by differential_operators.py:951). -/
def edgeLengths2 (n0 n1 : ℕ) (h0 : Fin n0 → ℚ) (h1 : Fin n1 → ℚ) :
    (Fin (n1 + 1) × Fin n0) ⊕ (Fin n1 × Fin (n0 + 1)) → ℚ :=
  Sum.elim (fun e => h0 e.2) (fun e => h1 e.1)

/-- `nodal_gradient` for a 2D mesh (differential_operators.py:949-953):
`sdiag(1/edge_lengths) * G`. -/
def nodal_gradient2 (n0 n1 : ℕ) (h0 : Fin n0 → ℚ) (h1 : Fin n1 → ℚ) :
    Matrix ((Fin (n1 + 1) × Fin n0) ⊕ (Fin n1 × Fin (n0 + 1)))
      (Fin (n1 + 1) × Fin (n0 + 1)) ℚ :=
  sdiag (fun e => 1 / edgeLengths2 n0 n1 h0 h1 e) * _nodal_gradient_stencil2 n0 n1

/-- `_edge_curl_stencil` for a 2D mesh (differential_operators.py:2056-2062):
`hstack((-D21, D12))` with `D21 = kron(ddx(n1), speye(n0))` and
`D12 = kron(speye(n1), ddx(n0))`. -/
def _edge_curl_stencil2 (n0 n1 : ℕ) :
    Matrix (Fin n1 × Fin n0) ((Fin (n1 + 1) × Fin n0) ⊕ (Fin n1 × Fin (n0 + 1))) ℚ :=
  fromColumns (-(kron (ddx n1) (speye n0))) (kron (speye n1) (ddx n0))

/-- The flat (x-fastest) 2D `face_areas` vector of a tensor mesh: the `(n0+1)*n1`
x-face areas `h1[j]` first, then the `n0*(n1+1)` y-face areas `h0[i]`. -/
def faceAreasFlat2 (n0 n1 : ℕ) (h0 : Fin n0 → ℚ) (h1 : Fin n1 → ℚ) (k : ℕ) : ℚ :=
  if k < (n0 + 1) * n1 then (List.ofFn h1).getD (k / (n0 + 1)) 0
  else (List.ofFn h0).getD ((k - (n0 + 1) * n1) % n0) 0

/-- The flat (x-fastest) position of a 2D edge in the stacked edges vector: the
`n0*(n1+1)` x-edges first, then the `(n0+1)*n1` y-edges. -/
def edgeFlat2 (n0 n1 : ℕ) :
    (Fin (n1 + 1) × Fin n0) ⊕ (Fin n1 × Fin (n0 + 1)) → ℕ :=
  Sum.elim (fun e => e.1.val * n0 + e.2.val)
    (fun e => n0 * (n1 + 1) + e.1.val * (n0 + 1) + e.2.val)

/-- `edge_curl` for a 2D mesh (differential_operators.py:2244-2245):
`stencil * sdiag(1/S)` where `S` is the flat `face_areas` vector; the scipy product
pairs the k-th edge column with the k-th flat face area. -/
def edge_curl2 (n0 n1 : ℕ) (h0 : Fin n0 → ℚ) (h1 : Fin n1 → ℚ) :
    Matrix (Fin n1 × Fin n0) ((Fin (n1 + 1) × Fin n0) ⊕ (Fin n1 × Fin (n0 + 1))) ℚ :=
  _edge_curl_stencil2 n0 n1 *
    sdiag (fun e => 1 / faceAreasFlat2 n0 n1 h0 h1 (edgeFlat2 n0 n1 e))

/-- `average_face_to_cell` for a 2D mesh (differential_operators.py:2647-2650 with
`aveFx2CC` of line 2846 and `aveFy2CC` of line 2934). -/
def average_face_to_cell2 (n0 n1 : ℕ) :
    Matrix (Fin n1 × Fin n0) ((Fin n1 × Fin (n0 + 1)) ⊕ (Fin (n1 + 1) × Fin n0)) ℚ :=
  (1 / 2 : ℚ) • fromColumns (kron (speye n1) (av n0)) (kron (av n1) (speye n0))

/-- `average_edge_to_cell` for a 2D mesh (differential_operators.py:3219-3222 with
`aveEx2CC` of line 3418 and `aveEy2CC` of line 3507). -/
def average_edge_to_cell2 (n0 n1 : ℕ) :
    Matrix (Fin n1 × Fin n0) ((Fin (n1 + 1) × Fin n0) ⊕ (Fin n1 × Fin (n0 + 1))) ℚ :=
  (1 / 2 : ℚ) • fromColumns (kron (av n1) (speye n0)) (kron (speye n1) (av n0))

/-- `average_node_to_cell` for a 2D mesh (differential_operators.py:3643-3646). -/
def average_node_to_cell2 (n0 n1 : ℕ) :
    Matrix (Fin n1 × Fin n0) (Fin (n1 + 1) × Fin (n0 + 1)) ℚ :=
  kron (av n1) (av n0)

/-! ### 3D mesh operators

Cell counts are `n0` (x), `n1` (y), `n2` (z); flattened x-fastest vectors are
indexed by triples `(z-index, y-index, x-index)`. -/

/-- `_face_divergence_stencil` for a 3D mesh (differential_operators.py:231-240 with
the directional stencils of lines 180-184, 197-201, 212-216). -/
def _face_divergence_stencil3 (n0 n1 n2 : ℕ) :
    Matrix (Fin n2 × Fin n1 × Fin n0)
      ((Fin n2 × Fin n1 × Fin (n0 + 1)) ⊕
        ((Fin n2 × Fin (n1 + 1) × Fin n0) ⊕ (Fin (n2 + 1) × Fin n1 × Fin n0))) ℚ :=
  fromColumns (kron3 (speye n2) (speye n1) (ddx n0))
    (fromColumns (kron3 (speye n2) (ddx n1) (speye n0))
      (kron3 (ddx n2) (speye n1) (speye n0)))

/-- `face_divergence` for a 3D mesh (differential_operators.py:389-396):
`sdiag(1/V) * D * sdiag(S)`. -/
def face_divergence3 (n0 n1 n2 : ℕ) (V : Fin n2 × Fin n1 × Fin n0 → ℚ)
    (S : (Fin n2 × Fin n1 × Fin (n0 + 1)) ⊕
      ((Fin n2 × Fin (n1 + 1) × Fin n0) ⊕ (Fin (n2 + 1) × Fin n1 × Fin n0)) → ℚ) :
    Matrix (Fin n2 × Fin n1 × Fin n0)
      ((Fin n2 × Fin n1 × Fin (n0 + 1)) ⊕
        ((Fin n2 × Fin (n1 + 1) × Fin n0) ⊕ (Fin (n2 + 1) × Fin n1 × Fin n0))) ℚ :=
  sdiag (fun c => 1 / V c) * _face_divergence_stencil3 n0 n1 n2 * sdiag S

/-- `_edge_x_curl_stencil` (differential_operators.py:2006-2017):
`hstack((O1, -D32, D23))`. -/
def _edge_x_curl_stencil3 (n0 n1 n2 : ℕ) :
    Matrix (Fin n2 × Fin n1 × Fin (n0 + 1))
      ((Fin (n2 + 1) × Fin (n1 + 1) × Fin n0) ⊕
        ((Fin (n2 + 1) × Fin n1 × Fin (n0 + 1)) ⊕
          (Fin n2 × Fin (n1 + 1) × Fin (n0 + 1)))) ℚ :=
  fromColumns 0
    (fromColumns (-(kron3 (ddx n2) (speye n1) (speye (n0 + 1))))
      (kron3 (speye n2) (ddx n1) (speye (n0 + 1))))

/-- `_edge_y_curl_stencil` (differential_operators.py:2020-2031):
`hstack((D31, O2, -D13))`. -/
def _edge_y_curl_stencil3 (n0 n1 n2 : ℕ) :
    Matrix (Fin n2 × Fin (n1 + 1) × Fin n0)
      ((Fin (n2 + 1) × Fin (n1 + 1) × Fin n0) ⊕
        ((Fin (n2 + 1) × Fin n1 × Fin (n0 + 1)) ⊕
          (Fin n2 × Fin (n1 + 1) × Fin (n0 + 1)))) ℚ :=
  fromColumns (kron3 (ddx n2) (speye (n1 + 1)) (speye n0))
    (fromColumns 0 (-(kron3 (speye n2) (speye (n1 + 1)) (ddx n0))))

/-- `_edge_z_curl_stencil` (differential_operators.py:2034-2045):
`hstack((-D21, D12, O3))`. -/
def _edge_z_curl_stencil3 (n0 n1 n2 : ℕ) :
    Matrix (Fin (n2 + 1) × Fin n1 × Fin n0)
      ((Fin (n2 + 1) × Fin (n1 + 1) × Fin n0) ⊕
        ((Fin (n2 + 1) × Fin n1 × Fin (n0 + 1)) ⊕
          (Fin n2 × Fin (n1 + 1) × Fin (n0 + 1)))) ℚ :=
  fromColumns (-(kron3 (speye (n2 + 1)) (ddx n1) (speye n0)))
    (fromColumns (kron3 (speye (n2 + 1)) (speye n1) (ddx n0)) 0)

/-- `_edge_curl_stencil` for a 3D mesh (differential_operators.py:2081-2090):
`vstack` of the three directional curl stencils. -/
def _edge_curl_stencil3 (n0 n1 n2 : ℕ) :
    Matrix
      ((Fin n2 × Fin n1 × Fin (n0 + 1)) ⊕
        ((Fin n2 × Fin (n1 + 1) × Fin n0) ⊕ (Fin (n2 + 1) × Fin n1 × Fin n0)))
      ((Fin (n2 + 1) × Fin (n1 + 1) × Fin n0) ⊕
        ((Fin (n2 + 1) × Fin n1 × Fin (n0 + 1)) ⊕
          (Fin n2 × Fin (n1 + 1) × Fin (n0 + 1)))) ℚ :=
  fromRows (_edge_x_curl_stencil3 n0 n1 n2)
    (fromRows (_edge_y_curl_stencil3 n0 n1 n2) (_edge_z_curl_stencil3 n0 n1 n2))

/-- `edge_curl` for a 3D mesh (differential_operators.py:2246-2247):
`sdiag(1/S) * (C * sdiag(L))`. -/
def edge_curl3 (n0 n1 n2 : ℕ)
    (S : (Fin n2 × Fin n1 × Fin (n0 + 1)) ⊕
      ((Fin n2 × Fin (n1 + 1) × Fin n0) ⊕ (Fin (n2 + 1) × Fin n1 × Fin n0)) → ℚ)
    (L : (Fin (n2 + 1) × Fin (n1 + 1) × Fin n0) ⊕
      ((Fin (n2 + 1) × Fin n1 × Fin (n0 + 1)) ⊕
        (Fin n2 × Fin (n1 + 1) × Fin (n0 + 1))) → ℚ) :
    Matrix
      ((Fin n2 × Fin n1 × Fin (n0 + 1)) ⊕
        ((Fin n2 × Fin (n1 + 1) × Fin n0) ⊕ (Fin (n2 + 1) × Fin n1 × Fin n0)))
      ((Fin (n2 + 1) × Fin (n1 + 1) × Fin n0) ⊕
        ((Fin (n2 + 1) × Fin n1 × Fin (n0 + 1)) ⊕
          (Fin n2 × Fin (n1 + 1) × Fin (n0 + 1)))) ℚ :=
  sdiag (fun f => 1 / S f) * (_edge_curl_stencil3 n0 n1 n2 * sdiag L)

/-- `_nodal_gradient_stencil` for a 3D mesh (differential_operators.py:801-809 with
the directional stencils of lines 749-753, 766-770, 781-785). -/
def _nodal_gradient_stencil3 (n0 n1 n2 : ℕ) :
    Matrix
      ((Fin (n2 + 1) × Fin (n1 + 1) × Fin n0) ⊕
        ((Fin (n2 + 1) × Fin n1 × Fin (n0 + 1)) ⊕
          (Fin n2 × Fin (n1 + 1) × Fin (n0 + 1))))
      (Fin (n2 + 1) × Fin (n1 + 1) × Fin (n0 + 1)) ℚ :=
  fromRows (kron3 (speye (n2 + 1)) (speye (n1 + 1)) (ddx n0))
    (fromRows (kron3 (speye (n2 + 1)) (ddx n1) (speye (n0 + 1)))
      (kron3 (ddx n2) (speye (n1 + 1)) (speye (n0 + 1))))

/-- `nodal_gradient` for a 3D mesh (differential_operators.py:949-953):
`sdiag(1/L) * G`. -/
def nodal_gradient3 (n0 n1 n2 : ℕ)
    (L : (Fin (n2 + 1) × Fin (n1 + 1) × Fin n0) ⊕
      ((Fin (n2 + 1) × Fin n1 × Fin (n0 + 1)) ⊕
        (Fin n2 × Fin (n1 + 1) × Fin (n0 + 1))) → ℚ) :
    Matrix
      ((Fin (n2 + 1) × Fin (n1 + 1) × Fin n0) ⊕
        ((Fin (n2 + 1) × Fin n1 × Fin (n0 + 1)) ⊕
          (Fin n2 × Fin (n1 + 1) × Fin (n0 + 1))))
      (Fin (n2 + 1) × Fin (n1 + 1) × Fin (n0 + 1)) ℚ :=
  sdiag (fun e => 1 / L e) * _nodal_gradient_stencil3 n0 n1 n2

/-- `average_face_to_cell` for a 3D mesh (differential_operators.py:2651-2654 with
`aveFx2CC` of line 2848, `aveFy2CC` of line 2936, `aveFz2CC` of line 3027). -/
def average_face_to_cell3 (n0 n1 n2 : ℕ) :
    Matrix (Fin n2 × Fin n1 × Fin n0)
      ((Fin n2 × Fin n1 × Fin (n0 + 1)) ⊕
        ((Fin n2 × Fin (n1 + 1) × Fin n0) ⊕ (Fin (n2 + 1) × Fin n1 × Fin n0))) ℚ :=
  (1 / 3 : ℚ) • fromColumns (kron3 (speye n2) (speye n1) (av n0))
    (fromColumns (kron3 (speye n2) (av n1) (speye n0))
      (kron3 (av n2) (speye n1) (speye n0)))

/-- `average_edge_to_cell` for a 3D mesh (differential_operators.py:3223-3226 with
`aveEx2CC` of line 3420, `aveEy2CC` of line 3509, `aveEz2CC` of line 3601). -/
def average_edge_to_cell3 (n0 n1 n2 : ℕ) :
    Matrix (Fin n2 × Fin n1 × Fin n0)
      ((Fin (n2 + 1) × Fin (n1 + 1) × Fin n0) ⊕
        ((Fin (n2 + 1) × Fin n1 × Fin (n0 + 1)) ⊕
          (Fin n2 × Fin (n1 + 1) × Fin (n0 + 1)))) ℚ :=
  (1 / 3 : ℚ) • fromColumns (kron3 (av n2) (av n1) (speye n0))
    (fromColumns (kron3 (av n2) (speye n1) (av n0))
      (kron3 (speye n2) (av n1) (av n0)))

/-- `average_node_to_cell` for a 3D mesh (differential_operators.py:3647-3652). -/
def average_node_to_cell3 (n0 n1 n2 : ℕ) :
    Matrix (Fin n2 × Fin n1 × Fin n0) (Fin (n2 + 1) × Fin (n1 + 1) × Fin (n0 + 1)) ℚ :=
  kron3 (av n2) (av n1) (av n0)

/-- `average_cell_to_face` for a 3D mesh (differential_operators.py:3051-3070):
`vstack` of the three `av_extrap`-based directional averaging operators. -/
def average_cell_to_face3 (n0 n1 n2 : ℕ) :
    Matrix
      ((Fin n2 × Fin n1 × Fin (n0 + 1)) ⊕
        ((Fin n2 × Fin (n1 + 1) × Fin n0) ⊕ (Fin (n2 + 1) × Fin n1 × Fin n0)))
      (Fin n2 × Fin n1 × Fin n0) ℚ :=
  fromRows (kron3 (speye n2) (speye n1) (av_extrap n0))
    (fromRows (kron3 (speye n2) (av_extrap n1) (speye n0))
      (kron3 (av_extrap n2) (speye n1) (speye n0)))

/-- A 3D tensor-mesh instance as the operator getters see it: the (immutable)
geometry arrays consumed from the mesh, together with the mutable
`_cell_gradient_BC_list` configuration field (differential_operators.py:1369). -/
structure TensorMesh3 (n0 n1 n2 : ℕ) where
  cell_volumes : Fin n2 × Fin n1 × Fin n0 → ℚ
  face_areas : (Fin n2 × Fin n1 × Fin (n0 + 1)) ⊕
    ((Fin n2 × Fin (n1 + 1) × Fin n0) ⊕ (Fin (n2 + 1) × Fin n1 × Fin n0)) → ℚ
  edge_lengths : (Fin (n2 + 1) × Fin (n1 + 1) × Fin n0) ⊕
    ((Fin (n2 + 1) × Fin n1 × Fin (n0 + 1)) ⊕
      (Fin n2 × Fin (n1 + 1) × Fin (n0 + 1))) → ℚ
  _cell_gradient_BC_list : PyBC := PyBC.str "neumann"

/-- `stencil_cell_gradient_x` for a 3D mesh (differential_operators.py:1443-1461):
the boundary conditions are hard-coded to `["neumann", "neumann"]`; the stored
`_cell_gradient_BC_list` of the mesh is never consulted. -/
def stencil_cell_gradient_x3 (n0 n1 n2 : ℕ) (_m : TensorMesh3 n0 n1 n2) :
    Matrix (Fin n2 × Fin n1 × Fin (n0 + 1)) (Fin n2 × Fin n1 × Fin n0) ℚ :=
  kron3 (speye n2) (speye n1) (ddxCellGradMat n0 "neumann" "neumann")

/-- `stencil_cell_gradient_y` for a 3D mesh (differential_operators.py:1463-1476). -/
def stencil_cell_gradient_y3 (n0 n1 n2 : ℕ) (_m : TensorMesh3 n0 n1 n2) :
    Matrix (Fin n2 × Fin (n1 + 1) × Fin n0) (Fin n2 × Fin n1 × Fin n0) ℚ :=
  kron3 (speye n2) (ddxCellGradMat n1 "neumann" "neumann") (speye n0)

/-- `stencil_cell_gradient_z` for a 3D mesh (differential_operators.py:1478-1488). -/
def stencil_cell_gradient_z3 (n0 n1 n2 : ℕ) (_m : TensorMesh3 n0 n1 n2) :
    Matrix (Fin (n2 + 1) × Fin n1 × Fin n0) (Fin n2 × Fin n1 × Fin n0) ℚ :=
  kron3 (ddxCellGradMat n2 "neumann" "neumann") (speye n1) (speye n0)

/-- `cell_gradient_x` for a 3D mesh (differential_operators.py:1956-1967):
`sdiag(reshape(face_areas / (aveCC2F * cell_volumes), Fx)) * G1`. -/
def cell_gradient_x3 (n0 n1 n2 : ℕ) (m : TensorMesh3 n0 n1 n2) :
    Matrix (Fin n2 × Fin n1 × Fin (n0 + 1)) (Fin n2 × Fin n1 × Fin n0) ℚ :=
  sdiag (fun f : Fin n2 × Fin n1 × Fin (n0 + 1) =>
      m.face_areas (Sum.inl f) /
        (average_cell_to_face3 n0 n1 n2 *ᵥ m.cell_volumes) (Sum.inl f)) *
    stencil_cell_gradient_x3 n0 n1 n2 m

/-- `cell_gradient_y` for a 3D mesh (differential_operators.py:1969-1982). -/
def cell_gradient_y3 (n0 n1 n2 : ℕ) (m : TensorMesh3 n0 n1 n2) :
    Matrix (Fin n2 × Fin (n1 + 1) × Fin n0) (Fin n2 × Fin n1 × Fin n0) ℚ :=
  sdiag (fun f : Fin n2 × Fin (n1 + 1) × Fin n0 =>
      m.face_areas (Sum.inr (Sum.inl f)) /
        (average_cell_to_face3 n0 n1 n2 *ᵥ m.cell_volumes) (Sum.inr (Sum.inl f))) *
    stencil_cell_gradient_y3 n0 n1 n2 m

/-- `cell_gradient_z` for a 3D mesh (differential_operators.py:1984-1997). -/
def cell_gradient_z3 (n0 n1 n2 : ℕ) (m : TensorMesh3 n0 n1 n2) :
    Matrix (Fin (n2 + 1) × Fin n1 × Fin n0) (Fin n2 × Fin n1 × Fin n0) ℚ :=
  sdiag (fun f : Fin (n2 + 1) × Fin n1 × Fin n0 =>
      m.face_areas (Sum.inr (Sum.inr f)) /
        (average_cell_to_face3 n0 n1 n2 *ᵥ m.cell_volumes) (Sum.inr (Sum.inr f))) *
    stencil_cell_gradient_z3 n0 n1 n2 m

/-- `stencil_cell_gradient` for a 3D mesh (differential_operators.py:1611-1627),
given the normalised per-axis boundary tokens produced by `set_cell_gradient_BC`. -/
def stencil_cell_gradient3 (n0 n1 n2 : ℕ) (tx0 tx1 ty0 ty1 tz0 tz1 : String) :
    Matrix
      ((Fin n2 × Fin n1 × Fin (n0 + 1)) ⊕
        ((Fin n2 × Fin (n1 + 1) × Fin n0) ⊕ (Fin (n2 + 1) × Fin n1 × Fin n0)))
      (Fin n2 × Fin n1 × Fin n0) ℚ :=
  fromRows (kron3 (speye n2) (speye n1) (ddxCellGradMat n0 tx0 tx1))
    (fromRows (kron3 (speye n2) (ddxCellGradMat n1 ty0 ty1) (speye n0))
      (kron3 (ddxCellGradMat n2 tz0 tz1) (speye n1) (speye n0)))

/-- The `stencil_cell_gradient` getter for a 3D mesh
(differential_operators.py:1600-1627): the stored `_cell_gradient_BC_list` is
re-validated through `set_cell_gradient_BC` (raising on an invalid stored value) and
the per-axis normalised tokens select the boundary rows of each directional block. -/
def stencil_cell_gradient3E (n0 n1 n2 : ℕ) (m : TensorMesh3 n0 n1 n2) :
    Except String
      (Matrix
        ((Fin n2 × Fin n1 × Fin (n0 + 1)) ⊕
          ((Fin n2 × Fin (n1 + 1) × Fin n0) ⊕ (Fin (n2 + 1) × Fin n1 × Fin n0)))
        (Fin n2 × Fin n1 × Fin n0) ℚ) := do
  let bc ← set_cell_gradient_BC 3 m._cell_gradient_BC_list
  .ok (stencil_cell_gradient3 n0 n1 n2
    ((bc.getD 0 []).getD 0 "") ((bc.getD 0 []).getD 1 "")
    ((bc.getD 1 []).getD 0 "") ((bc.getD 1 []).getD 1 "")
    ((bc.getD 2 []).getD 0 "") ((bc.getD 2 []).getD 1 ""))

/-- `cell_gradient` for a 3D mesh (differential_operators.py:1778-1785), given the
normalised per-axis boundary tokens: `sdiag(S / (aveCC2F * V)) * G`. -/
def cell_gradient3 (n0 n1 n2 : ℕ) (tx0 tx1 ty0 ty1 tz0 tz1 : String)
    (V : Fin n2 × Fin n1 × Fin n0 → ℚ)
    (S : (Fin n2 × Fin n1 × Fin (n0 + 1)) ⊕
      ((Fin n2 × Fin (n1 + 1) × Fin n0) ⊕ (Fin (n2 + 1) × Fin n1 × Fin n0)) → ℚ) :
    Matrix
      ((Fin n2 × Fin n1 × Fin (n0 + 1)) ⊕
        ((Fin n2 × Fin (n1 + 1) × Fin n0) ⊕ (Fin (n2 + 1) × Fin n1 × Fin n0)))
      (Fin n2 × Fin n1 × Fin n0) ℚ :=
  sdiag (fun f => S f / (average_cell_to_face3 n0 n1 n2 *ᵥ V) f) *
    stencil_cell_gradient3 n0 n1 n2 tx0 tx1 ty0 ty1 tz0 tz1

/-! ### Robin boundary conditions for the edge divergence weak form -/

/-- The mesh data consumed by `edge_divergence_weak_form_robin`: the boundary
projection matrices, the node-to-face averaging operator and the face areas
(external collaborators of the operator engine). -/
structure RobinCtx where
  n_nodes : ℕ
  n_faces : ℕ
  n_bf : ℕ
  n_bn : ℕ
  Pbn : Matrix (Fin n_bn) (Fin n_nodes) ℚ
  Pbf : Matrix (Fin n_bf) (Fin n_faces) ℚ
  aveN2F : Matrix (Fin n_faces) (Fin n_nodes) ℚ
  face_areas : Fin n_faces → ℚ

/-- The scalar-broadcasting steps of `edge_divergence_weak_form_robin`
(differential_operators.py:1318-1330): a length-1 `alpha` is expanded to the length
of `beta`, else of `gamma`, else to `n_boundary_faces`; then length-1 `beta` and
`gamma` are expanded to the (possibly already expanded) length of `alpha`. -/
def broadcastRobin (nbf : ℕ) (a b c : List ℚ) : List ℚ × List ℚ × List ℚ :=
  let a1 :=
    if a.length = 1 then
      (if b.length ≠ 1 then List.replicate b.length (a.getD 0 0)
       else if c.length ≠ 1 then List.replicate c.length (a.getD 0 0)
       else List.replicate nbf (a.getD 0 0))
    else a
  let b1 := if b.length = 1 ∧ a1.length ≠ 1 then List.replicate a1.length (b.getD 0 0) else b
  let c1 := if c.length = 1 ∧ a1.length ≠ 1 then List.replicate a1.length (c.getD 0 0) else c
  (a1, b1, c1)

/-- The `(B, b)` value built by `edge_divergence_weak_form_robin` after validation
(differential_operators.py:1340-1361, one-dimensional `gamma`): the
boundary-face-length branch applies `AveBN2Bf.T` to the face-length vectors, the
boundary-node-length branch applies it to the boundary areas only. -/
def robinValue (ctx : RobinCtx) (a1 b1 c1 : List ℚ) :
    Matrix (Fin ctx.n_nodes) (Fin ctx.n_nodes) ℚ × (Fin ctx.n_nodes → ℚ) :=
  let AveBN2Bf := ctx.Pbf * ctx.aveN2F * ctx.Pbnᵀ
  let boundary_areas := ctx.Pbf *ᵥ ctx.face_areas
  if a1.length = ctx.n_bf then
    (Matrix.diagonal (ctx.Pbnᵀ *ᵥ (AveBN2Bfᵀ *ᵥ fun i =>
        -(a1.getD i.val 0) / b1.getD i.val 0 * boundary_areas i)),
     ctx.Pbnᵀ *ᵥ (AveBN2Bfᵀ *ᵥ fun i =>
        c1.getD i.val 0 / b1.getD i.val 0 * boundary_areas i))
  else
    (Matrix.diagonal (ctx.Pbnᵀ *ᵥ fun i =>
        -(a1.getD i.val 0) / b1.getD i.val 0 * (AveBN2Bfᵀ *ᵥ boundary_areas) i),
     ctx.Pbnᵀ *ᵥ fun i =>
        c1.getD i.val 0 / b1.getD i.val 0 * (AveBN2Bfᵀ *ᵥ boundary_areas) i)

/-- `edge_divergence_weak_form_robin` (differential_operators.py:1305-1361): reject a
zero `beta` entry, broadcast scalars, reject mismatched lengths and lengths that are
neither `n_boundary_faces` nor `n_boundary_nodes`, and otherwise return the `(B, b)`
pair.  The method assigns no mesh attribute. -/
def edge_divergence_weak_form_robin (ctx : RobinCtx) (alpha beta gamma : List ℚ) :
    Except String
      (Matrix (Fin ctx.n_nodes) (Fin ctx.n_nodes) ℚ × (Fin ctx.n_nodes → ℚ)) :=
  if ∃ x ∈ beta, x = 0 then .error "beta cannot have a zero value"
  else
    let abc := broadcastRobin ctx.n_bf alpha beta gamma
    if ¬(abc.1.length = abc.2.1.length ∧ abc.2.1.length = abc.2.2.length) then
      .error "alpha, beta, and gamma must have the same length"
    else if ¬(abc.1.length = ctx.n_bf ∨ abc.1.length = ctx.n_bn) then
      .error "The arrays must be of length n_boundary_faces or n_boundary_nodes"
    else .ok (robinValue ctx abc.1 abc.2.1 abc.2.2)

/-! ## Helper lemmas -/

theorem kron_mul_kron {a₁ a₂ a₃ b₁ b₂ b₃ : Type} [Fintype a₂] [Fintype b₂]
    (A : Matrix a₁ a₂ ℚ) (B : Matrix b₁ b₂ ℚ)
    (A' : Matrix a₂ a₃ ℚ) (B' : Matrix b₂ b₃ ℚ) :
    kron A B * kron A' B' = kron (A * A') (B * B') := by
  unfold kron
  rw [Matrix.mul_kronecker_mul]

theorem kron3_mul_kron3 {a₁ a₂ a₃ b₁ b₂ b₃ c₁ c₂ c₃ : Type}
    [Fintype a₂] [Fintype b₂] [Fintype c₂]
    (A : Matrix a₁ a₂ ℚ) (B : Matrix b₁ b₂ ℚ) (C : Matrix c₁ c₂ ℚ)
    (A' : Matrix a₂ a₃ ℚ) (B' : Matrix b₂ b₃ ℚ) (C' : Matrix c₂ c₃ ℚ) :
    kron3 A B C * kron3 A' B' C' = kron3 (A * A') (B * B') (C * C') := by
  unfold kron3
  rw [kron_mul_kron, kron_mul_kron]

theorem fromColumns_add {m n₁ n₂ : Type} (A A' : Matrix m n₁ ℚ) (B B' : Matrix m n₂ ℚ) :
    fromColumns A B + fromColumns A' B' = fromColumns (A + A') (B + B') := by
  ext i j
  cases j <;> simp [fromColumns]

theorem sdiag_mul_sdiag_inv {ι : Type} [Fintype ι] [DecidableEq ι] (v : ι → ℚ)
    (hv : ∀ i, v i ≠ 0) :
    sdiag v * sdiag (fun i => 1 / v i) = 1 := by
  unfold sdiag
  rw [diagonal_mul_diagonal]
  have h1 : (fun i => v i * (1 / v i)) = fun _ => (1 : ℚ) := by
    funext i
    have := hv i
    field_simp
  rw [h1, diagonal_one]

theorem sdiag_const {ι : Type} [DecidableEq ι] (c : ℚ) :
    sdiag (fun _ : ι => c) = c • (1 : Matrix ι ι ℚ) := by
  unfold sdiag
  ext i j
  by_cases h : i = j <;> simp [Matrix.diagonal_apply, h]

theorem kron_mulVec_one {a b c d : Type} [Fintype b] [Fintype d]
    (A : Matrix a b ℚ) (B : Matrix c d ℚ)
    (hA : A *ᵥ (fun _ => 1) = fun _ => 1) (hB : B *ᵥ (fun _ => 1) = fun _ => 1) :
    kron A B *ᵥ (fun _ => 1) = fun _ => 1 := by
  funext ik
  obtain ⟨i, k⟩ := ik
  have h1 := congrFun hA i
  have h2 := congrFun hB k
  simp only [Matrix.mulVec, dotProduct, mul_one] at h1 h2 ⊢
  rw [Fintype.sum_prod_type]
  simp only [kron, Matrix.kroneckerMap_apply]
  rw [← Finset.sum_mul_sum, h1, h2, one_mul]

theorem speye_mulVec_one (n : ℕ) : speye n *ᵥ (fun _ => 1) = fun _ => 1 :=
  Matrix.one_mulVec _

theorem av_mulVec_one (n : ℕ) : av n *ᵥ (fun _ => 1) = fun _ => 1 := by
  funext i
  simp only [Matrix.mulVec, dotProduct, mul_one, av, Matrix.of_apply]
  have hsplit : ∀ j : Fin (n + 1),
      (if j = i.castSucc then (1 : ℚ) / 2 else if j = i.succ then 1 / 2 else 0) =
        (if j = i.castSucc then 1 / 2 else 0) + (if j = i.succ then 1 / 2 else 0) := by
    intro j
    by_cases hc : j = i.castSucc
    · subst hc
      simp [(Fin.castSucc_lt_succ i).ne]
    · simp [hc]
  rw [Finset.sum_congr rfl fun j _ => hsplit j, Finset.sum_add_distrib,
    Finset.sum_ite_eq' Finset.univ (i.castSucc) (fun _ => (1 : ℚ) / 2),
    Finset.sum_ite_eq' Finset.univ (i.succ) (fun _ => (1 : ℚ) / 2)]
  norm_num

theorem ones_sum_elim {α β : Type} :
    (fun _ : α ⊕ β => (1 : ℚ)) = Sum.elim (fun _ => 1) (fun _ => 1) := by
  funext s
  cases s <;> rfl

theorem fromColumns_mulVec_one {m n₁ n₂ : Type} [Fintype n₁] [Fintype n₂]
    (A : Matrix m n₁ ℚ) (B : Matrix m n₂ ℚ)
    (hA : A *ᵥ (fun _ => 1) = fun _ => 1) (hB : B *ᵥ (fun _ => 1) = fun _ => 1) :
    fromColumns A B *ᵥ (fun _ => 1) = fun _ => 2 := by
  rw [ones_sum_elim, fromColumns_mulVec_sum_elim, hA, hB]
  funext i
  norm_num [Pi.add_apply]

/-! ## Claims -/

/-- C3: every physical operator is the stated diagonal sandwich of its topology-only
stencil — `face_divergence = diag(1/V) * D_stencil * diag(S)`,
`nodal_gradient = diag(1/L) * G_stencil`, and
`cell_gradient = diag(S / (aveCC2F * V)) * stencil_cell_gradient` with the cell
volumes averaged to faces by the extrapolating cell-to-face averaging operator; on
the uniform two-cell 1D mesh with unit widths, `face_divergence` equals
`[[-1, 1, 0], [0, -1, 1]]`. -/
theorem C3_diagonal_sandwich :
    (face_divergence1 2 ![1, 1] ![1, 1, 1] = !![(-1 : ℚ), 1, 0; 0, -1, 1]) ∧
    (∀ n0 n1 n2 V S, face_divergence3 n0 n1 n2 V S =
      sdiag (fun c => 1 / V c) * _face_divergence_stencil3 n0 n1 n2 * sdiag S) ∧
    (∀ n0 n1 n2 L, nodal_gradient3 n0 n1 n2 L =
      sdiag (fun e => 1 / L e) * _nodal_gradient_stencil3 n0 n1 n2) ∧
    (∀ n0 n1 n2 tx0 tx1 ty0 ty1 tz0 tz1 V S,
      cell_gradient3 n0 n1 n2 tx0 tx1 ty0 ty1 tz0 tz1 V S =
        sdiag (fun f => S f / (average_cell_to_face3 n0 n1 n2 *ᵥ V) f) *
          stencil_cell_gradient3 n0 n1 n2 tx0 tx1 ty0 ty1 tz0 tz1) := by
  refine ⟨?_, fun _ _ _ _ _ => rfl, fun _ _ _ _ => rfl, fun _ _ _ _ _ _ _ _ _ _ _ => rfl⟩
  ext i j
  fin_cases i <;> fin_cases j <;>
    simp [face_divergence1, sdiag, ddx, Matrix.mul_apply, Fin.sum_univ_succ,
      Matrix.diagonal_apply, Fin.ext_iff, Matrix.cons_val_zero, Matrix.cons_val_one]

/-- C5: on tensor meshes of dimension 1, 2 and 3, the scalar averaging operators
`average_face_to_cell`, `average_edge_to_cell` and `average_node_to_cell` map the
all-ones vector to the all-ones vector. -/
theorem C5_averaging_partition_of_unity (n0 n1 n2 : ℕ) :
    (average_face_to_cell1 n0 *ᵥ (fun _ => 1) = fun _ => 1) ∧
    (average_edge_to_cell1 n0 *ᵥ (fun _ => 1) = fun _ => 1) ∧
    (average_node_to_cell1 n0 *ᵥ (fun _ => 1) = fun _ => 1) ∧
    (average_face_to_cell2 n0 n1 *ᵥ (fun _ => 1) = fun _ => 1) ∧
    (average_edge_to_cell2 n0 n1 *ᵥ (fun _ => 1) = fun _ => 1) ∧
    (average_node_to_cell2 n0 n1 *ᵥ (fun _ => 1) = fun _ => 1) ∧
    (average_face_to_cell3 n0 n1 n2 *ᵥ (fun _ => 1) = fun _ => 1) ∧
    (average_edge_to_cell3 n0 n1 n2 *ᵥ (fun _ => 1) = fun _ => 1) ∧
    (average_node_to_cell3 n0 n1 n2 *ᵥ (fun _ => 1) = fun _ => 1) := by
  have hav := av_mulVec_one
  have hsp := speye_mulVec_one
  have hkav2 : ∀ a b : ℕ, kron (av a) (av b) *ᵥ (fun _ => 1) = fun _ => 1 :=
    fun a b => kron_mulVec_one _ _ (hav a) (hav b)
  refine ⟨hav n0, hsp n0, hav n0, ?_, ?_, hkav2 n1 n0, ?_, ?_, ?_⟩
  · unfold average_face_to_cell2
    rw [smul_mulVec_assoc,
      fromColumns_mulVec_one _ _ (kron_mulVec_one _ _ (hsp n1) (hav n0))
        (kron_mulVec_one _ _ (hav n1) (hsp n0))]
    funext c
    norm_num [Pi.smul_apply]
  · unfold average_edge_to_cell2
    rw [smul_mulVec_assoc,
      fromColumns_mulVec_one _ _ (kron_mulVec_one _ _ (hav n1) (hsp n0))
        (kron_mulVec_one _ _ (hsp n1) (hav n0))]
    funext c
    norm_num [Pi.smul_apply]
  · unfold average_face_to_cell3
    have h1 : kron3 (speye n2) (speye n1) (av n0) *ᵥ (fun _ => 1) = fun _ => 1 :=
      kron_mulVec_one _ _ (hsp n2) (kron_mulVec_one _ _ (hsp n1) (hav n0))
    have h2 : kron3 (speye n2) (av n1) (speye n0) *ᵥ (fun _ => 1) = fun _ => 1 :=
      kron_mulVec_one _ _ (hsp n2) (kron_mulVec_one _ _ (hav n1) (hsp n0))
    have h3 : kron3 (av n2) (speye n1) (speye n0) *ᵥ (fun _ => 1) = fun _ => 1 :=
      kron_mulVec_one _ _ (hav n2) (kron_mulVec_one _ _ (hsp n1) (hsp n0))
    rw [smul_mulVec_assoc, ones_sum_elim, fromColumns_mulVec_sum_elim, h1,
      ones_sum_elim, fromColumns_mulVec_sum_elim, h2, h3]
    funext c
    norm_num [Pi.smul_apply, Pi.add_apply]
  · unfold average_edge_to_cell3
    have h1 : kron3 (av n2) (av n1) (speye n0) *ᵥ (fun _ => 1) = fun _ => 1 :=
      kron_mulVec_one _ _ (hav n2) (kron_mulVec_one _ _ (hav n1) (hsp n0))
    have h2 : kron3 (av n2) (speye n1) (av n0) *ᵥ (fun _ => 1) = fun _ => 1 :=
      kron_mulVec_one _ _ (hav n2) (kron_mulVec_one _ _ (hsp n1) (hav n0))
    have h3 : kron3 (speye n2) (av n1) (av n0) *ᵥ (fun _ => 1) = fun _ => 1 :=
      kron_mulVec_one _ _ (hsp n2) (kron_mulVec_one _ _ (hav n1) (hav n0))
    rw [smul_mulVec_assoc, ones_sum_elim, fromColumns_mulVec_sum_elim, h1,
      ones_sum_elim, fromColumns_mulVec_sum_elim, h2, h3]
    funext c
    norm_num [Pi.smul_apply, Pi.add_apply]
  · exact kron_mulVec_one _ _ (hav n2) (hkav2 n1 n0)

/-- C8: the spec describes `nodal_laplacian` as the sum of per-axis scaled second
differences on nodes, but `_nodal_laplacian_x` composes the cell-sized scaling
`Hx = sdiag(1/h[0])` with the nodal-gradient stencil `Hx.T * Gx * Hx`, whose inner
dimensions never agree: on every 1D mesh the scipy product raises a dimension
mismatch (here: evaluates to `none`). -/
theorem C8_nodal_laplacian_dimension_mismatch (n : ℕ) (h : Fin n → ℚ) :
    nodal_laplacian1 n h = none := by
  simp [nodal_laplacian1, _nodal_laplacian_x_dim1, spmul, Nat.succ_ne_self]

/-- C9: `face_divergence` memoizes correctly — a second access performs no build and
leaves the cache unchanged — but `average_edge_to_cell` stores the built operator in
`_avE2CC` while testing `_average_edge_to_cell`, so the attribute it consults stays
unset and every access rebuilds the operator, contradicting the claimed
build-at-most-once caching. -/
theorem C9_cache_behavior (n : ℕ) (V : Fin n → ℚ) (S : Fin (n + 1) → ℚ)
    (st : MeshCache1 n) (hst : st._average_edge_to_cell = none) :
    ((face_divergence_get n V S (face_divergence_get n V S st).2.1).2.2 = false ∧
     (face_divergence_get n V S (face_divergence_get n V S st).2.1).2.1 =
       (face_divergence_get n V S st).2.1 ∧
     (face_divergence_get n V S (face_divergence_get n V S st).2.1).1 =
       (face_divergence_get n V S st).1) ∧
    ((average_edge_to_cell_get n st).2.2 = true ∧
     (average_edge_to_cell_get n st).2.1._average_edge_to_cell = none ∧
     (average_edge_to_cell_get n (average_edge_to_cell_get n st).2.1).2.2 = true) := by
  constructor
  · cases hfd : st._face_divergence <;>
      simp [face_divergence_get, hfd]
  · simp [average_edge_to_cell_get, hst]

/-- Witness for C9 at a concrete two-cell 1D mesh with a fresh cache. -/
theorem C9_cache_behavior_witness :
    ((MeshCache1.mk none none none : MeshCache1 2)._average_edge_to_cell = none) ∧
    ((average_edge_to_cell_get 2 (MeshCache1.mk none none none)).2.2 = true ∧
     (average_edge_to_cell_get 2 (MeshCache1.mk none none none)).2.1._average_edge_to_cell = none ∧
     (average_edge_to_cell_get 2
        (average_edge_to_cell_get 2 (MeshCache1.mk none none none)).2.1).2.2 = true) :=
  ⟨rfl, (C9_cache_behavior 2 ![1, 1] ![1, 1, 1] (MeshCache1.mk none none none) rfl).2⟩

theorem div_curl_stencil3_zero (n0 n1 n2 : ℕ) :
    _face_divergence_stencil3 n0 n1 n2 * _edge_curl_stencil3 n0 n1 n2 = 0 := by
  unfold _face_divergence_stencil3 _edge_curl_stencil3 _edge_x_curl_stencil3
    _edge_y_curl_stencil3 _edge_z_curl_stencil3
  rw [fromColumns_mul_fromRows, fromColumns_mul_fromRows]
  simp only [mul_fromColumns, Matrix.mul_zero, Matrix.mul_neg, kron3_mul_kron3, speye,
    Matrix.one_mul, Matrix.mul_one]
  rw [fromColumns_add, fromColumns_add, fromColumns_add, fromColumns_add]
  simp only [add_zero, zero_add, add_neg_cancel, neg_add_cancel, fromColumns_zero]

/-- C1: on every 3D tensor mesh with at least two cells along each axis, the face
divergence annihilates the edge curl: the topology-only product
`_face_divergence_stencil * _edge_curl_stencil` is the zero matrix, and (the face
areas being nonzero) the geometric diagonal scalings cancel so that
`face_divergence * edge_curl` is exactly zero. -/
theorem C1_face_divergence_edge_curl_zero (n0 n1 n2 : ℕ)
    (hn0 : 2 ≤ n0) (hn1 : 2 ≤ n1) (hn2 : 2 ≤ n2)
    (V : Fin n2 × Fin n1 × Fin n0 → ℚ)
    (S : (Fin n2 × Fin n1 × Fin (n0 + 1)) ⊕
      ((Fin n2 × Fin (n1 + 1) × Fin n0) ⊕ (Fin (n2 + 1) × Fin n1 × Fin n0)) → ℚ)
    (L : (Fin (n2 + 1) × Fin (n1 + 1) × Fin n0) ⊕
      ((Fin (n2 + 1) × Fin n1 × Fin (n0 + 1)) ⊕
        (Fin n2 × Fin (n1 + 1) × Fin (n0 + 1))) → ℚ)
    (hS : ∀ f, S f ≠ 0) :
    _face_divergence_stencil3 n0 n1 n2 * _edge_curl_stencil3 n0 n1 n2 = 0 ∧
    face_divergence3 n0 n1 n2 V S * edge_curl3 n0 n1 n2 S L = 0 := by
  refine ⟨div_curl_stencil3_zero n0 n1 n2, ?_⟩
  unfold face_divergence3 edge_curl3
  have hc : sdiag S * sdiag (fun f => 1 / S f) = 1 := sdiag_mul_sdiag_inv S hS
  simp only [Matrix.mul_assoc]
  rw [← Matrix.mul_assoc (sdiag S) (sdiag fun f => 1 / S f), hc, Matrix.one_mul,
    ← Matrix.mul_assoc (_face_divergence_stencil3 n0 n1 n2) (_edge_curl_stencil3 n0 n1 n2),
    div_curl_stencil3_zero, Matrix.zero_mul, Matrix.mul_zero]

/-- Witness for C1 on a 2x2x2 mesh with unit geometry. -/
theorem C1_face_divergence_edge_curl_zero_witness :
    (2 ≤ 2) ∧
    (_face_divergence_stencil3 2 2 2 * _edge_curl_stencil3 2 2 2 = 0 ∧
      face_divergence3 2 2 2 (fun _ => 1) (fun _ => 1) *
        edge_curl3 2 2 2 (fun _ => 1) (fun _ => 1) = 0) :=
  ⟨le_refl 2,
    C1_face_divergence_edge_curl_zero 2 2 2 (le_refl 2) (le_refl 2) (le_refl 2)
      (fun _ => 1) (fun _ => 1) (fun _ => 1) (fun _ => one_ne_zero)⟩

theorem curl_grad_stencil3_zero (n0 n1 n2 : ℕ) :
    _edge_curl_stencil3 n0 n1 n2 * _nodal_gradient_stencil3 n0 n1 n2 = 0 := by
  unfold _edge_curl_stencil3 _edge_x_curl_stencil3 _edge_y_curl_stencil3
    _edge_z_curl_stencil3 _nodal_gradient_stencil3
  simp only [fromRows_mul, fromColumns_mul_fromRows, Matrix.zero_mul, Matrix.neg_mul,
    kron3_mul_kron3, speye, Matrix.one_mul, Matrix.mul_one, add_neg_cancel,
    neg_add_cancel, zero_add, add_zero, fromRows_zero]

theorem curl_grad_stencil2_zero (n0 n1 : ℕ) :
    _edge_curl_stencil2 n0 n1 * _nodal_gradient_stencil2 n0 n1 = 0 := by
  unfold _edge_curl_stencil2 _nodal_gradient_stencil2
  rw [fromColumns_mul_fromRows]
  simp only [Matrix.neg_mul, kron_mul_kron, speye, Matrix.one_mul, Matrix.mul_one,
    neg_add_cancel]

theorem faceAreasFlat2_const (n0 n1 : ℕ) (hn0 : 0 < n0) (h : ℚ)
    (e : (Fin (n1 + 1) × Fin n0) ⊕ (Fin n1 × Fin (n0 + 1))) :
    faceAreasFlat2 n0 n1 (fun _ => h) (fun _ => h) (edgeFlat2 n0 n1 e) = h := by
  unfold faceAreasFlat2
  split_ifs with hk
  · have hlen : edgeFlat2 n0 n1 e / (n0 + 1) < (List.ofFn fun _ : Fin n1 => h).length := by
      rw [List.length_ofFn]
      rw [Nat.div_lt_iff_lt_mul (Nat.succ_pos n0), mul_comm]
      exact hk
    rw [List.getD_eq_getElem _ _ hlen, List.getElem_ofFn]
  · have hlen : (edgeFlat2 n0 n1 e - (n0 + 1) * n1) % n0 <
        (List.ofFn fun _ : Fin n0 => h).length := by
      rw [List.length_ofFn]
      exact Nat.mod_lt _ hn0
    rw [List.getD_eq_getElem _ _ hlen, List.getElem_ofFn]

/-- C4 counterexample: on the non-uniform 2D tensor mesh with cell widths
`h0 = [1, 2]`, `h1 = [1]`, the scaled composition `edge_curl * nodal_gradient` is not
zero (its entry at the first cell and first node is `-1/2`): the 2D geometric
scalings `C_stencil * diag(1/face_areas)` and `diag(1/edge_lengths) * G_stencil` do
not cancel on a non-uniform mesh. -/
theorem C4_counterexample_2d_nonuniform :
    edge_curl2 2 1 ![1, 2] ![1] * nodal_gradient2 2 1 ![1, 2] ![1] ≠ 0 := by
  intro hEq
  have h00 := congrFun (congrFun hEq ((0 : Fin 1), (0 : Fin 2))) ((0 : Fin 2), (0 : Fin 3))
  simp only [edge_curl2, nodal_gradient2, _edge_curl_stencil2, _nodal_gradient_stencil2,
    edgeLengths2, faceAreasFlat2, edgeFlat2, sdiag, kron, speye, ddx,
    Matrix.mul_apply, Fintype.sum_sum_type, Fintype.sum_prod_type, Fin.sum_univ_succ,
    Finset.univ_unique, Finset.sum_singleton, Matrix.diagonal_apply, Matrix.of_apply,
    Matrix.kroneckerMap_apply, fromColumns, fromRows, Sum.elim_inl, Sum.elim_inr,
    Matrix.zero_apply, Matrix.neg_apply, Matrix.one_apply] at h00
  norm_num [Fin.ext_iff, List.ofFn_succ, Sum.inl.injEq, Sum.inr.injEq, Prod.mk.injEq,
    Sum.inl_ne_inr, Sum.inr_ne_inl, reduceCtorEq] at h00

/-- C4, amended: `edge_curl * nodal_gradient` vanishes exactly on every 3D tensor
mesh (with nonzero edge lengths, the `diag(L)`/`diag(1/L)` scalings cancelling); in
2D the topology-only composition `C_stencil * G_stencil` vanishes on every mesh, and
the scaled composition vanishes on uniform meshes (all cell widths equal), but not in
general on non-uniform 2D meshes. -/
theorem C4_curl_grad_amended :
    (∀ n0 n1 n2
      (S : (Fin n2 × Fin n1 × Fin (n0 + 1)) ⊕
        ((Fin n2 × Fin (n1 + 1) × Fin n0) ⊕ (Fin (n2 + 1) × Fin n1 × Fin n0)) → ℚ)
      (L : (Fin (n2 + 1) × Fin (n1 + 1) × Fin n0) ⊕
        ((Fin (n2 + 1) × Fin n1 × Fin (n0 + 1)) ⊕
          (Fin n2 × Fin (n1 + 1) × Fin (n0 + 1))) → ℚ),
      (∀ e, L e ≠ 0) →
        edge_curl3 n0 n1 n2 S L * nodal_gradient3 n0 n1 n2 L = 0) ∧
    (∀ n0 n1, _edge_curl_stencil2 n0 n1 * _nodal_gradient_stencil2 n0 n1 = 0) ∧
    (∀ n0 n1 (h : ℚ), 0 < n0 →
      edge_curl2 n0 n1 (fun _ => h) (fun _ => h) *
        nodal_gradient2 n0 n1 (fun _ => h) (fun _ => h) = 0) := by
  refine ⟨?_, curl_grad_stencil2_zero, ?_⟩
  · intro n0 n1 n2 S L hL
    unfold edge_curl3 nodal_gradient3
    have hc : sdiag L * sdiag (fun e => 1 / L e) = 1 := sdiag_mul_sdiag_inv L hL
    simp only [Matrix.mul_assoc]
    rw [← Matrix.mul_assoc (sdiag L) (sdiag fun e => 1 / L e), hc, Matrix.one_mul,
      curl_grad_stencil3_zero, Matrix.mul_zero]
  · intro n0 n1 h hn0
    unfold edge_curl2 nodal_gradient2
    have hS : (fun e => 1 / faceAreasFlat2 n0 n1 (fun _ => h) (fun _ => h)
        (edgeFlat2 n0 n1 e)) = fun _ => 1 / h := by
      funext e
      rw [faceAreasFlat2_const n0 n1 hn0 h e]
    have hL : (fun e => 1 / edgeLengths2 n0 n1 (fun _ => h) (fun _ => h) e) =
        fun _ => 1 / h := by
      funext e
      cases e <;> rfl
    rw [hS, hL, sdiag_const]
    simp only [Matrix.mul_smul, Matrix.smul_mul, Matrix.mul_one, Matrix.one_mul,
      curl_grad_stencil2_zero, smul_zero]

/-- Witness for the amended C4 on a 2x1x1 3D mesh with unit geometry and on the
uniform 2x1 2D mesh with unit widths. -/
theorem C4_curl_grad_amended_witness :
    (∀ e : (Fin 2 × Fin 2 × Fin 2) ⊕
        ((Fin 2 × Fin 1 × Fin 3) ⊕ (Fin 1 × Fin 2 × Fin 3)),
      (fun _ => (1 : ℚ)) e ≠ 0) ∧
    (edge_curl3 2 1 1 (fun _ => 1) (fun _ => 1) * nodal_gradient3 2 1 1 (fun _ => 1) = 0) ∧
    (0 < 2) ∧
    (edge_curl2 2 1 (fun _ => 1) (fun _ => 1) *
      nodal_gradient2 2 1 (fun _ => 1) (fun _ => 1) = 0) :=
  ⟨fun _ => one_ne_zero,
    C4_curl_grad_amended.1 2 1 1 (fun _ => 1) (fun _ => 1) (fun _ => one_ne_zero),
    Nat.zero_lt_two,
    C4_curl_grad_amended.2.2 2 1 1 Nat.zero_lt_two⟩

theorem ddxCellGradMat_apply_first (n : ℕ) (hn : 1 ≤ n) (t0 t1 : String) :
    ddxCellGradMat n t0 t1 0 ⟨0, hn⟩ =
      (if t0 = "dirichlet" then 2 else if t0 = "neumann" then 0 else 1) := by
  simp [ddxCellGradMat]

theorem ddxCellGradMat_apply_last (n : ℕ) (hn : 1 ≤ n) (t0 t1 : String) :
    ddxCellGradMat n t0 t1 (Fin.last n) ⟨n - 1, by omega⟩ =
      (if t1 = "dirichlet" then -2 else if t1 = "neumann" then 0 else -1) := by
  have hn0 : n ≠ 0 := by omega
  have hsub : n - 1 + 1 = n := Nat.sub_add_cancel hn
  have hne : n - 1 ≠ n := by omega
  simp [ddxCellGradMat, Fin.last, hn0, hsub, hne]

theorem ddxCellGradMat_apply_interior (n : ℕ) (t0 t1 : String)
    (i : Fin (n + 1)) (j : Fin n) (h1i : 1 ≤ (i : ℕ)) (hin : (i : ℕ) ≤ n - 1) :
    ddxCellGradMat n t0 t1 i j =
      if (j : ℕ) = (i : ℕ) then 1 else if (j : ℕ) + 1 = (i : ℕ) then -1 else 0 := by
  have hn : 1 ≤ n := by omega
  have hi0 : (i : ℕ) ≠ 0 := by omega
  have hiN : (i : ℕ) ≠ n := by omega
  simp [ddxCellGradMat, hi0, hiN]

/-- C2: with valid boundary tokens, `_ddxCellGrad(n, bc)` succeeds and sets the first
boundary entry to `2` (dirichlet) or `0` (neumann), the last one to `-2` (dirichlet)
or `0` (neumann), keeping the generic low-to-high difference in the interior rows;
for `n = 4` the first row is `[2, 0, 0, 0]` under dirichlet and `[0, 0, 0, 0]` under
neumann, and the companion `_ddxCellGradBC(n, bc)` carries `-2` / `2` (dirichlet) or
`0` (neumann) in the boundary-value slots. -/
theorem C2_ddxCellGrad_boundary :
    (∀ (n : ℕ) (t0 t1 : String) (hn : 1 ≤ n),
      (t0 = "dirichlet" ∨ t0 = "neumann") → (t1 = "dirichlet" ∨ t1 = "neumann") →
      ∃ D, _ddxCellGrad n (PyBC.list [PyBC.str t0, PyBC.str t1]) = Except.ok D ∧
        D 0 ⟨0, hn⟩ = (if t0 = "dirichlet" then 2 else 0) ∧
        D (Fin.last n) ⟨n - 1, by omega⟩ = (if t1 = "dirichlet" then -2 else 0) ∧
        ∀ (i : Fin (n + 1)) (j : Fin n), 1 ≤ (i : ℕ) → (i : ℕ) ≤ n - 1 →
          D i j = if (j : ℕ) = (i : ℕ) then 1
            else if (j : ℕ) + 1 = (i : ℕ) then -1 else 0) ∧
    (∃ D, _ddxCellGrad 4 (PyBC.list [PyBC.str "dirichlet", PyBC.str "dirichlet"]) =
        Except.ok D ∧ (fun j => D 0 j) = ![2, 0, 0, 0]) ∧
    (∃ D, _ddxCellGrad 4 (PyBC.list [PyBC.str "neumann", PyBC.str "neumann"]) =
        Except.ok D ∧ (fun j => D 0 j) = ![0, 0, 0, 0]) ∧
    (∀ (n : ℕ) (t0 t1 : String),
      (t0 = "dirichlet" ∨ t0 = "neumann") → (t1 = "dirichlet" ∨ t1 = "neumann") →
      ∃ B, _ddxCellGradBC n (PyBC.list [PyBC.str t0, PyBC.str t1]) = Except.ok B ∧
        B 0 0 = (if t0 = "dirichlet" then -2 else 0) ∧
        B (Fin.last n) 1 = (if t1 = "dirichlet" then 2 else 0)) := by
  refine ⟨?_, ?_, ?_, ?_⟩
  · intro n t0 t1 hn h0 h1
    refine ⟨ddxCellGradMat n t0 t1, ?_, ?_, ?_,
      fun i j h1i hin => ddxCellGradMat_apply_interior n t0 t1 i j h1i hin⟩
    · rcases h0 with rfl | rfl <;> rcases h1 with rfl | rfl <;> rfl
    · rw [ddxCellGradMat_apply_first n hn t0 t1]
      rcases h0 with rfl | rfl <;> simp
    · rw [ddxCellGradMat_apply_last n hn t0 t1]
      rcases h1 with rfl | rfl <;> simp
  · refine ⟨ddxCellGradMat 4 "dirichlet" "dirichlet", rfl, ?_⟩
    funext j
    fin_cases j <;>
      simp [ddxCellGradMat, show ((1 : Fin 4) : ℕ) = 1 from rfl,
        show ((2 : Fin 4) : ℕ) = 2 from rfl, show ((3 : Fin 4) : ℕ) = 3 from rfl]
  · refine ⟨ddxCellGradMat 4 "neumann" "neumann", rfl, ?_⟩
    funext j
    fin_cases j <;>
      simp [ddxCellGradMat, show ((1 : Fin 4) : ℕ) = 1 from rfl,
        show ((2 : Fin 4) : ℕ) = 2 from rfl, show ((3 : Fin 4) : ℕ) = 3 from rfl]
  · intro n t0 t1 h0 h1
    refine ⟨ddxCellGradBCMat n t0 t1, ?_, ?_, ?_⟩
    · rcases h0 with rfl | rfl <;> rcases h1 with rfl | rfl <;> rfl
    · rcases h0 with rfl | rfl <;> simp [ddxCellGradBCMat]
    · rcases h1 with rfl | rfl <;> simp [ddxCellGradBCMat, Fin.last]

/-- Witness for C2 at `n = 4` with dirichlet at the low end and neumann at the
high end. -/
theorem C2_ddxCellGrad_boundary_witness :
    (1 ≤ 4) ∧
    (∃ D, _ddxCellGrad 4 (PyBC.list [PyBC.str "dirichlet", PyBC.str "neumann"]) =
      Except.ok D ∧
      D 0 ⟨0, by omega⟩ = (if "dirichlet" = "dirichlet" then 2 else 0) ∧
      D (Fin.last 4) ⟨3, by omega⟩ = (if "neumann" = "dirichlet" then -2 else 0) ∧
      ∀ (i : Fin 5) (j : Fin 4), 1 ≤ (i : ℕ) → (i : ℕ) ≤ 3 →
        D i j = if (j : ℕ) = (i : ℕ) then 1
          else if (j : ℕ) + 1 = (i : ℕ) then -1 else 0) :=
  ⟨by norm_num,
    C2_ddxCellGrad_boundary.1 4 "dirichlet" "neumann" (by norm_num)
      (Or.inl rfl) (Or.inr rfl)⟩

theorem validateTokens_ok_iff (xs : List PyBC) :
    (∃ v, validateTokens xs = Except.ok v) ↔
      ∀ x ∈ xs, ∃ s, x = PyBC.str s ∧ ValidToken s := by
  induction xs with
  | nil => simp [validateTokens]
  | cons x rest ih =>
    cases x with
    | str s =>
        by_cases hs : s = "dirichlet" ∨ s = "neumann"
        · cases hvr : validateTokens rest with
          | error e =>
              simp only [validateTokens, if_pos hs, hvr, List.mem_cons]
              constructor
              · rintro ⟨v, hv⟩
                cases hv
              · intro hall
                rcases ih.mpr (fun x hx => hall x (Or.inr hx)) with ⟨v, hv⟩
                rw [hvr] at hv
                cases hv
          | ok r =>
              simp only [validateTokens, if_pos hs, hvr, List.mem_cons]
              constructor
              · intro _ x hx
                rcases hx with rfl | hx
                · exact ⟨s, rfl, hs⟩
                · exact (ih.mp ⟨r, hvr⟩) x hx
              · intro _
                exact ⟨s :: r, rfl⟩
        · simp only [validateTokens, if_neg hs, List.mem_cons]
          constructor
          · rintro ⟨v, hv⟩
            cases hv
          · intro hall
            rcases hall (PyBC.str s) (Or.inl rfl) with ⟨t, ht, hvt⟩
            cases ht
            exact absurd hvt hs
    | list ys =>
        simp only [validateTokens, List.mem_cons]
        constructor
        · rintro ⟨v, hv⟩
          cases hv
        · intro hall
          rcases hall (PyBC.list ys) (Or.inl rfl) with ⟨t, ht, _⟩
          cases ht

theorem validate_BC_ok_iff (bc : PyBC) :
    (∃ v, _validate_BC bc = Except.ok v) ↔ ValidBCElem bc := by
  cases bc with
  | str s =>
      rw [show _validate_BC (PyBC.str s) =
          validateTokens [PyBC.str s, PyBC.str s] from rfl, validateTokens_ok_iff]
      show _ ↔ ValidToken s
      simp [List.forall_mem_cons, PyBC.str.injEq]
  | list xs =>
      by_cases hlen : xs.length = 2
      · rw [show _validate_BC (PyBC.list xs) =
            (if xs.length ≠ 2 then Except.error
              "bc list must have two elements, one for each side"
             else validateTokens xs) from rfl,
          if_neg (by simp [hlen]), validateTokens_ok_iff]
        show _ ↔ ∃ a b, xs = [PyBC.str a, PyBC.str b] ∧ ValidToken a ∧ ValidToken b
        constructor
        · intro hall
          rcases List.length_eq_two.mp hlen with ⟨x1, x2, rfl⟩
          rcases hall x1 (by simp) with ⟨a, rfl, ha⟩
          rcases hall x2 (by simp) with ⟨b, rfl, hb⟩
          exact ⟨a, b, rfl, ha, hb⟩
        · rintro ⟨a, b, rfl, ha, hb⟩
          intro x hx
          rcases List.mem_cons.mp hx with rfl | hx
          · exact ⟨a, rfl, ha⟩
          · rcases List.mem_cons.mp hx with rfl | hx
            · exact ⟨b, rfl, hb⟩
            · cases hx
      · rw [show _validate_BC (PyBC.list xs) =
            (if xs.length ≠ 2 then Except.error
              "bc list must have two elements, one for each side"
             else validateTokens xs) from rfl,
          if_pos hlen]
        constructor
        · rintro ⟨v, hv⟩
          cases hv
        · rintro ⟨a, b, rfl, -, -⟩
          simp at hlen

theorem validateAll_ok_iff (xs : List PyBC) :
    (∃ v, validateAll xs = Except.ok v) ↔ ∀ x ∈ xs, ValidBCElem x := by
  induction xs with
  | nil => simp [validateAll]
  | cons x rest ih =>
    cases hvx : _validate_BC x with
    | error e =>
        simp only [validateAll, hvx, List.mem_cons]
        constructor
        · rintro ⟨v, hv⟩
          cases hv
        · intro hall
          rcases (validate_BC_ok_iff x).mpr (hall x (Or.inl rfl)) with ⟨v, hv⟩
          rw [hvx] at hv
          cases hv
    | ok v =>
        cases hvr : validateAll rest with
        | error e =>
            simp only [validateAll, hvx, hvr, List.mem_cons]
            constructor
            · rintro ⟨w, hw⟩
              cases hw
            · intro hall
              rcases ih.mpr (fun x hx => hall x (Or.inr hx)) with ⟨w, hw⟩
              rw [hvr] at hw
              cases hw
        | ok r =>
            simp only [validateAll, hvx, hvr, List.mem_cons]
            constructor
            · intro _ y hy
              rcases hy with rfl | hy
              · exact (validate_BC_ok_iff y).mp ⟨v, hvx⟩
              · exact (ih.mp ⟨r, hvr⟩) y hy
            · intro _
              exact ⟨v :: r, rfl⟩

/-- C6: `_validate_BC` (and `set_cell_gradient_BC`, which uses it per axis) accepts
a boundary-condition descriptor exactly when it has one of the described shapes —
a single `"dirichlet"`/`"neumann"` token, a two-element sequence of such tokens,
or (for a `dim`-dimensional mesh) a length-`dim` sequence of per-axis entries of
those shapes — and fails with an error on everything else. -/
theorem C6_validate_BC_exactly :
    (∀ bc, (∃ v, _validate_BC bc = Except.ok v) ↔ ValidBCElem bc) ∧
    (∀ (dim : ℕ) (BC : PyBC), 1 ≤ dim →
      ((∃ v, set_cell_gradient_BC dim BC = Except.ok v) ↔ ValidBCSpec dim BC)) := by
  refine ⟨validate_BC_ok_iff, ?_⟩
  intro dim BC hdim
  cases BC with
  | str s =>
      rw [show set_cell_gradient_BC dim (PyBC.str s) =
          (if (List.replicate dim (PyBC.str s)).length ≠ dim then Except.error
            "BC list must be the size of your mesh"
           else validateAll (List.replicate dim (PyBC.str s))) from rfl,
        if_neg (by simp), validateAll_ok_iff]
      show _ ↔ ValidToken s
      constructor
      · intro hall
        exact hall (PyBC.str s) (by simp [List.mem_replicate]; omega)
      · intro h x hx
        rw [(List.eq_of_mem_replicate hx)]
        exact h
  | list xs =>
      by_cases hlen : xs.length = dim
      · rw [show set_cell_gradient_BC dim (PyBC.list xs) =
            (if xs.length ≠ dim then Except.error "BC list must be the size of your mesh"
             else validateAll xs) from rfl,
          if_neg (by simp [hlen]), validateAll_ok_iff]
        show _ ↔ xs.length = dim ∧ ∀ x ∈ xs, ValidBCElem x
        simp [hlen]
      · rw [show set_cell_gradient_BC dim (PyBC.list xs) =
            (if xs.length ≠ dim then Except.error "BC list must be the size of your mesh"
             else validateAll xs) from rfl,
          if_pos hlen]
        show _ ↔ xs.length = dim ∧ ∀ x ∈ xs, ValidBCElem x
        constructor
        · rintro ⟨v, hv⟩
          cases hv
        · rintro ⟨h, -⟩
          exact absurd h hlen

/-- Witness for C6 on a concrete accepted descriptor for a 2D mesh. -/
theorem C6_validate_BC_exactly_witness :
    ((∃ v, _validate_BC (PyBC.str "dirichlet") = Except.ok v) ↔
      ValidBCElem (PyBC.str "dirichlet")) ∧
    (1 ≤ 2) ∧
    ((∃ v, set_cell_gradient_BC 2
        (PyBC.list [PyBC.str "neumann",
          PyBC.list [PyBC.str "dirichlet", PyBC.str "neumann"]]) = Except.ok v) ↔
      ValidBCSpec 2 (PyBC.list [PyBC.str "neumann",
        PyBC.list [PyBC.str "dirichlet", PyBC.str "neumann"]])) :=
  ⟨C6_validate_BC_exactly.1 (PyBC.str "dirichlet"), by norm_num,
    C6_validate_BC_exactly.2 2 _ (by norm_num)⟩

/-- C7: `edge_divergence_weak_form_robin` returns a `(B, b)` pair exactly when no
entry of `beta` is zero, the scalar-broadcast `alpha`, `beta`, `gamma` all have the
same length, and that common length is the number of boundary faces or boundary
nodes; under any of those failures it signals an error instead.  (The method assigns
no mesh attribute, so the mesh state is unchanged.) -/
theorem C7_edge_divergence_weak_form_robin_errors (ctx : RobinCtx)
    (alpha beta gamma : List ℚ) :
    (∃ Bb, edge_divergence_weak_form_robin ctx alpha beta gamma = Except.ok Bb) ↔
      ¬((∃ x ∈ beta, x = 0) ∨
        ¬((broadcastRobin ctx.n_bf alpha beta gamma).1.length =
            (broadcastRobin ctx.n_bf alpha beta gamma).2.1.length ∧
          (broadcastRobin ctx.n_bf alpha beta gamma).2.1.length =
            (broadcastRobin ctx.n_bf alpha beta gamma).2.2.length) ∨
        ¬((broadcastRobin ctx.n_bf alpha beta gamma).1.length = ctx.n_bf ∨
          (broadcastRobin ctx.n_bf alpha beta gamma).1.length = ctx.n_bn)) := by
  simp only [edge_divergence_weak_form_robin]
  split_ifs with h1 h2 h3
  all_goals
    first
      | exact iff_of_true ⟨_, rfl⟩ (fun hcon => by
          rcases hcon with h | h | h
          · exact h1 h
          · exact h h2
          · exact h h3)
      | exact iff_of_false (by rintro ⟨Bb, hBb⟩; cases hBb)
          (not_not_intro (Or.inl h1))
      | exact iff_of_false (by rintro ⟨Bb, hBb⟩; cases hBb)
          (not_not_intro (Or.inr (Or.inl h2)))
      | exact iff_of_false (by rintro ⟨Bb, hBb⟩; cases hBb)
          (not_not_intro (Or.inr (Or.inr h3)))

/-- C10: the per-direction cell-gradient operators never consult the stored
boundary-condition configuration — two mesh instances with the same geometry yield
identical `stencil_cell_gradient_x/y/z` and `cell_gradient_x/y/z` whatever their
`_cell_gradient_BC_list` fields hold (the directional stencils hard-code
`["neumann", "neumann"]`) — while the full `stencil_cell_gradient` does depend on
the stored configuration. -/
theorem C10_bc_noninterference :
    (∀ (n0 n1 n2 : ℕ) (m1 m2 : TensorMesh3 n0 n1 n2),
      m1.cell_volumes = m2.cell_volumes → m1.face_areas = m2.face_areas →
      stencil_cell_gradient_x3 n0 n1 n2 m1 = stencil_cell_gradient_x3 n0 n1 n2 m2 ∧
      stencil_cell_gradient_y3 n0 n1 n2 m1 = stencil_cell_gradient_y3 n0 n1 n2 m2 ∧
      stencil_cell_gradient_z3 n0 n1 n2 m1 = stencil_cell_gradient_z3 n0 n1 n2 m2 ∧
      cell_gradient_x3 n0 n1 n2 m1 = cell_gradient_x3 n0 n1 n2 m2 ∧
      cell_gradient_y3 n0 n1 n2 m1 = cell_gradient_y3 n0 n1 n2 m2 ∧
      cell_gradient_z3 n0 n1 n2 m1 = cell_gradient_z3 n0 n1 n2 m2) ∧
    (∃ m1 m2 : TensorMesh3 1 1 1,
      m1.cell_volumes = m2.cell_volumes ∧ m1.face_areas = m2.face_areas ∧
      m1.edge_lengths = m2.edge_lengths ∧
      stencil_cell_gradient3E 1 1 1 m1 ≠ stencil_cell_gradient3E 1 1 1 m2) := by
  constructor
  · intro n0 n1 n2 m1 m2 hV hS
    refine ⟨rfl, rfl, rfl, ?_, ?_, ?_⟩
    · unfold cell_gradient_x3 stencil_cell_gradient_x3
      rw [hV, hS]
    · unfold cell_gradient_y3 stencil_cell_gradient_y3
      rw [hV, hS]
    · unfold cell_gradient_z3 stencil_cell_gradient_z3
      rw [hV, hS]
  · refine ⟨⟨fun _ => 1, fun _ => 1, fun _ => 1, PyBC.str "dirichlet"⟩,
      ⟨fun _ => 1, fun _ => 1, fun _ => 1, PyBC.str "neumann"⟩, rfl, rfl, rfl, ?_⟩
    intro h
    rw [show stencil_cell_gradient3E 1 1 1
          ⟨fun _ => 1, fun _ => 1, fun _ => 1, PyBC.str "dirichlet"⟩ =
        Except.ok (stencil_cell_gradient3 1 1 1 "dirichlet" "dirichlet" "dirichlet"
          "dirichlet" "dirichlet" "dirichlet") from rfl,
      show stencil_cell_gradient3E 1 1 1
          ⟨fun _ => 1, fun _ => 1, fun _ => 1, PyBC.str "neumann"⟩ =
        Except.ok (stencil_cell_gradient3 1 1 1 "neumann" "neumann" "neumann"
          "neumann" "neumann" "neumann") from rfl] at h
    have h2 := congrFun (congrFun (Except.ok.inj h)
      (Sum.inl ((0 : Fin 1), (0 : Fin 1), (0 : Fin 2)))) ((0 : Fin 1), (0 : Fin 1), (0 : Fin 1))
    simp [stencil_cell_gradient3, kron3, kron, speye, ddxCellGradMat, fromRows,
      Matrix.kroneckerMap_apply, Matrix.one_apply] at h2

/-- Witness for C10 on two concrete unit meshes differing only in the stored
boundary conditions. -/
theorem C10_bc_noninterference_witness :
    ((TensorMesh3.mk (fun _ => 1) (fun _ => 1) (fun _ => 1)
        (PyBC.str "dirichlet") : TensorMesh3 1 1 1).cell_volumes =
      (TensorMesh3.mk (fun _ => 1) (fun _ => 1) (fun _ => 1)
        (PyBC.str "neumann") : TensorMesh3 1 1 1).cell_volumes) ∧
    (cell_gradient_x3 1 1 1
        (TensorMesh3.mk (fun _ => 1) (fun _ => 1) (fun _ => 1) (PyBC.str "dirichlet")) =
      cell_gradient_x3 1 1 1
        (TensorMesh3.mk (fun _ => 1) (fun _ => 1) (fun _ => 1) (PyBC.str "neumann"))) :=
  ⟨rfl,
    (C10_bc_noninterference.1 1 1 1
      (TensorMesh3.mk (fun _ => 1) (fun _ => 1) (fun _ => 1) (PyBC.str "dirichlet"))
      (TensorMesh3.mk (fun _ => 1) (fun _ => 1) (fun _ => 1) (PyBC.str "neumann"))
      rfl rfl).2.2.2.1⟩

end Discretize
